/-
Verification of the QSFP-DD decode logic of ethtool (qsfp-dd.c / qsfp-dd.h).

The module memory is modelled as a total byte map `Nat → Nat` (a C pointer
into the raw EEPROM dump: dereferencing never fails in the source, reads past
the declared length return whatever happens to live there), together with the
separately declared length `eeprom_len` that the source receives as its own
parameter.  Printing is out of scope; each `qsfp_dd_show_*` function of the
source is embedded as the pure value it computes and renders.
-/
import Mathlib

namespace QsfpDd

/-! ## Constants from qsfp-dd.h -/

def QSFP_DD_PAG_SIZE : Nat := 0x80
def QSFP_DD_EEPROM_5PAG : Nat := 0x80 * 6
def QSFP_DD_MAX_CHANNELS : Nat := 0x08
def QSFP_DD_READ_TX : Nat := 0x00
def QSFP_DD_READ_RX : Nat := 0x01

def HA : Nat := 0
def LA : Nat := 1
def HW : Nat := 2
def LW : Nat := 3

def QSFP_DD_MODULE_TYPE_OFFSET : Nat := 0x55
def QSFP_DD_MT_MMF : Nat := 0x01
def QSFP_DD_MT_SMF : Nat := 0x02

def QSFP_DD_CURR_TEMP_OFFSET : Nat := 0x0E
def QSFP_DD_CURR_CURR_OFFSET : Nat := 0x10

def QSFP_DD_CBL_ASM_LEN_OFFSET : Nat := 0xCA
def QSFP_DD_6300M_MAX_LEN : Nat := 0xFF

def QSFP_DD_MULTIPLIER_00 : Nat := 0x00
def QSFP_DD_MULTIPLIER_01 : Nat := 0x40
def QSFP_DD_MULTIPLIER_10 : Nat := 0x80
def QSFP_DD_MULTIPLIER_11 : Nat := 0xC0
def QSFP_DD_LEN_MUL_MASK : Nat := 0xC0
def QSFP_DD_LEN_VAL_MASK : Nat := 0x3F

def QSFP_DD_COPPER_ATT_5GHZ : Nat := 0xCC
def QSFP_DD_COPPER_ATT_7GHZ : Nat := 0xCD
def QSFP_DD_COPPER_ATT_12P9GHZ : Nat := 0xCE
def QSFP_DD_COPPER_ATT_25P8GHZ : Nat := 0xCF

def QSFP_DD_MEDIA_INTF_TECH_OFFSET : Nat := 0xD4
def QSFP_DD_COPPER_UNEQUAL : Nat := 0x0A

def PAG01H_OFFSET : Nat := 0x01 * 0x80

def QSFP_DD_SMF_LEN_OFFSET : Nat := PAG01H_OFFSET + 0x84

def QSFP_DD_NOM_WAVELENGTH_MSB : Nat := PAG01H_OFFSET + 0x8A
def QSFP_DD_NOM_WAVELENGTH_LSB : Nat := PAG01H_OFFSET + 0x8B
def QSFP_DD_WAVELENGTH_TOL_MSB : Nat := PAG01H_OFFSET + 0x8C
def QSFP_DD_WAVELENGTH_TOL_LSB : Nat := PAG01H_OFFSET + 0x8D

def PAG02H_OFFSET : Nat := 0x02 * 0x80

def QSFP_DD_TEMP_THRS_START_OFFSET : Nat := PAG02H_OFFSET + 0x80
def QSFP_DD_VOLT_THRS_START_OFFSET : Nat := PAG02H_OFFSET + 0x88
def QSFP_DD_TXPW_THRS_START_OFFSET : Nat := PAG02H_OFFSET + 0xB0
def QSFP_DD_TXBI_THRS_START_OFFSET : Nat := PAG02H_OFFSET + 0xB8
def QSFP_DD_RXPW_THRS_START_OFFSET : Nat := PAG02H_OFFSET + 0xC0

def PAG11H_OFFSET : Nat := 0x04 * 0x80

def QSFP_DD_TX_PWR_START_OFFSET : Nat := PAG11H_OFFSET + 0x9A
def QSFP_DD_TX_BIAS_START_OFFSET : Nat := PAG11H_OFFSET + 0xAA
def QSFP_DD_RX_PWR_START_OFFSET : Nat := PAG11H_OFFSET + 0xBA

def QSFP_DD_TX_HA_OFFSET : Nat := PAG11H_OFFSET + 0x8B
def QSFP_DD_TX_LA_OFFSET : Nat := PAG11H_OFFSET + 0x8C
def QSFP_DD_TX_HW_OFFSET : Nat := PAG11H_OFFSET + 0x8D
def QSFP_DD_TX_LW_OFFSET : Nat := PAG11H_OFFSET + 0x8E

def QSFP_DD_RX_HA_OFFSET : Nat := PAG11H_OFFSET + 0x95
def QSFP_DD_RX_LA_OFFSET : Nat := PAG11H_OFFSET + 0x96
def QSFP_DD_RX_HW_OFFSET : Nat := PAG11H_OFFSET + 0x97
def QSFP_DD_RX_LW_OFFSET : Nat := PAG11H_OFFSET + 0x98

/-! ## Primitive field decoding -/

/-- Modelled from the spec: the macro OFFSET_TO_U16 lives in sff-common.h,
which is not among this repository's sources; the spec describes the
operation `u16_be(offset)` as two consecutive bytes combined
most-significant first. -/
def OFFSET_TO_U16 (id : Nat → Nat) (off : Nat) : Nat :=
  id off * 256 + id (off + 1)

/-- The C cast `(__s16)` of a 16-bit big-endian read: reduce modulo 2^16 and
reinterpret as a two's-complement signed value. -/
def toS16 (v : Nat) : Int :=
  if v % 65536 < 32768 then (v % 65536 : Int) else (v % 65536 : Int) - 65536

/-- qsfp-dd.c line 296: `#define OFFSET_TO_TEMP(offset) ((__s16)OFFSET_TO_U16(offset))` -/
def OFFSET_TO_TEMP (id : Nat → Nat) (off : Nat) : Int :=
  toS16 (OFFSET_TO_U16 id off)

/-! ## Data model (struct qsfp_dd_channel_diags, struct qsfp_dd_diags) -/

structure qsfp_dd_channel_diags where
  bias_cur : Nat
  rx_power : Nat
  tx_power : Nat
deriving DecidableEq

structure qsfp_dd_diags where
  sfp_voltage : List Nat
  sfp_temp : List Int
  bias_cur : List Nat
  tx_power : List Nat
  rx_power : List Nat
  rxaw : List (List Bool)
  txaw : List (List Bool)
  scd : List qsfp_dd_channel_diags
deriving DecidableEq

/-! ## Decode functions from qsfp-dd.c -/

/-- Result of qsfp_dd_show_cbl_asm_len: either the "> 6.3km" sentinel line or
a concrete length in km (the float arithmetic of the source is modelled
exactly over the rationals). -/
inductive CblAsmLenResult where
  | maxLen6300m : CblAsmLenResult
  | lengthKm : ℚ → CblAsmLenResult
deriving DecidableEq

/-- Body of qsfp_dd_show_cbl_asm_len as a function of the single byte it
reads (`id[QSFP_DD_CBL_ASM_LEN_OFFSET]`): sentinel check first, then the
multiplier from bits 7-6 (`mul` keeps its initial value 1.0 in the switch
default), then the 6-bit magnitude times the multiplier. -/
def cbl_asm_len_of_byte (b : Nat) : CblAsmLenResult :=
  if b = QSFP_DD_6300M_MAX_LEN then .maxLen6300m
  else
    let mul : ℚ :=
      if b &&& QSFP_DD_LEN_MUL_MASK = QSFP_DD_MULTIPLIER_00 then 1/10
      else if b &&& QSFP_DD_LEN_MUL_MASK = QSFP_DD_MULTIPLIER_01 then 1
      else if b &&& QSFP_DD_LEN_MUL_MASK = QSFP_DD_MULTIPLIER_10 then 10
      else if b &&& QSFP_DD_LEN_MUL_MASK = QSFP_DD_MULTIPLIER_11 then 100
      else 1
    .lengthKm ((b &&& QSFP_DD_LEN_VAL_MASK : Nat) * mul)

/-- qsfp_dd_show_cbl_asm_len (qsfp-dd.c lines 89-123). -/
def qsfp_dd_show_cbl_asm_len (id : Nat → Nat) : CblAsmLenResult :=
  cbl_asm_len_of_byte (id QSFP_DD_CBL_ASM_LEN_OFFSET)

/-- Body of qsfp_dd_print_smf_cbl_len as a function of the byte it reads:
the switch only has cases for multiplier codes 00 (0.1) and 01 (1.0); codes
10 and 11 hit the default, which leaves `mul` at its initial value 1.0.
There is no sentinel check in this function. -/
def smf_cbl_len_of_byte (b : Nat) : ℚ :=
  let mul : ℚ :=
    if b &&& QSFP_DD_LEN_MUL_MASK = QSFP_DD_MULTIPLIER_00 then 1/10
    else if b &&& QSFP_DD_LEN_MUL_MASK = QSFP_DD_MULTIPLIER_01 then 1
    else 1
  (b &&& QSFP_DD_LEN_VAL_MASK : Nat) * mul

/-- qsfp_dd_print_smf_cbl_len (qsfp-dd.c lines 132-154). -/
def qsfp_dd_print_smf_cbl_len (id : Nat → Nat) : ℚ :=
  smf_cbl_len_of_byte (id QSFP_DD_SMF_LEN_OFFSET)

/-- Result of qsfp_dd_show_mit_compliance: for technology codes at or above
QSFP_DD_COPPER_UNEQUAL the four attenuation bytes are printed; below it, the
nominal wavelength and wavelength tolerance (bytes combined `(msb << 8) | lsb`,
scaled by 0.05 nm resp. 0.005 nm). -/
inductive MitResult where
  | copper : Nat → Nat → Nat → Nat → MitResult
  | optical : ℚ → ℚ → MitResult
deriving DecidableEq

/-- qsfp_dd_show_mit_compliance (qsfp-dd.c lines 188-263), decode part:
the attenuation/wavelength values it prints. -/
def qsfp_dd_show_mit_compliance (id : Nat → Nat) : MitResult :=
  if QSFP_DD_COPPER_UNEQUAL ≤ id QSFP_DD_MEDIA_INTF_TECH_OFFSET then
    .copper (id QSFP_DD_COPPER_ATT_5GHZ) (id QSFP_DD_COPPER_ATT_7GHZ)
      (id QSFP_DD_COPPER_ATT_12P9GHZ) (id QSFP_DD_COPPER_ATT_25P8GHZ)
  else
    .optical
      (((id QSFP_DD_NOM_WAVELENGTH_MSB <<< 8 |||
         id QSFP_DD_NOM_WAVELENGTH_LSB : Nat) : ℚ) * (5/100))
      (((id QSFP_DD_WAVELENGTH_TOL_MSB <<< 8 |||
         id QSFP_DD_WAVELENGTH_TOL_LSB : Nat) : ℚ) * (5/1000))

/-- qsfp_dd_read_aw_for_channel (qsfp-dd.c lines 273-289): the four flags
stored into txaw[ch] (mode = QSFP_DD_READ_TX) or rxaw[ch] (otherwise),
indexed HA, LA, HW, LW; each flag is bit `ch` of the class byte. -/
def qsfp_dd_read_aw_for_channel (id : Nat → Nat) (ch mode : Nat) : List Bool :=
  let cmsk := 1 <<< ch
  if mode = QSFP_DD_READ_TX then
    [id QSFP_DD_TX_HA_OFFSET &&& cmsk != 0,
     id QSFP_DD_TX_LA_OFFSET &&& cmsk != 0,
     id QSFP_DD_TX_HW_OFFSET &&& cmsk != 0,
     id QSFP_DD_TX_LW_OFFSET &&& cmsk != 0]
  else
    [id QSFP_DD_RX_HA_OFFSET &&& cmsk != 0,
     id QSFP_DD_RX_LA_OFFSET &&& cmsk != 0,
     id QSFP_DD_RX_HW_OFFSET &&& cmsk != 0,
     id QSFP_DD_RX_LW_OFFSET &&& cmsk != 0]

/-- qsfp_dd_parse_diagnostics (qsfp-dd.c lines 302-354): per-lane monitor
values at start offset + i*2 for each of the 8 lanes, per-lane alarm and
warning flags, and the HA/LA/HW/LW threshold values at start offset + i*2
for each monitored quantity. -/
def qsfp_dd_parse_diagnostics (id : Nat → Nat) : qsfp_dd_diags :=
  { scd := (List.range QSFP_DD_MAX_CHANNELS).map (fun i =>
      { bias_cur := OFFSET_TO_U16 id (QSFP_DD_TX_BIAS_START_OFFSET + (i <<< 1))
        rx_power := OFFSET_TO_U16 id (QSFP_DD_RX_PWR_START_OFFSET + (i <<< 1))
        tx_power := OFFSET_TO_U16 id (QSFP_DD_TX_PWR_START_OFFSET + (i <<< 1)) })
    txaw := (List.range QSFP_DD_MAX_CHANNELS).map
      (fun ch => qsfp_dd_read_aw_for_channel id ch QSFP_DD_READ_TX)
    rxaw := (List.range QSFP_DD_MAX_CHANNELS).map
      (fun ch => qsfp_dd_read_aw_for_channel id ch QSFP_DD_READ_RX)
    tx_power := (List.range 4).map
      (fun i => OFFSET_TO_U16 id (QSFP_DD_TXPW_THRS_START_OFFSET + (i <<< 1)))
    rx_power := (List.range 4).map
      (fun i => OFFSET_TO_U16 id (QSFP_DD_RXPW_THRS_START_OFFSET + (i <<< 1)))
    bias_cur := (List.range 4).map
      (fun i => OFFSET_TO_U16 id (QSFP_DD_TXBI_THRS_START_OFFSET + (i <<< 1)))
    sfp_temp := (List.range 4).map
      (fun i => OFFSET_TO_TEMP id (QSFP_DD_TEMP_THRS_START_OFFSET + (i <<< 1)))
    sfp_voltage := (List.range 4).map
      (fun i => OFFSET_TO_U16 id (QSFP_DD_VOLT_THRS_START_OFFSET + (i <<< 1))) }

/-- Decoded output of qsfp_dd_show_sig_optical_pwr: the current temperature
and voltage always printed from page 0, and the diagnostics block, which is
`none` exactly when the early return at qsfp-dd.c lines 452-455 is taken. -/
structure SigPwrReport where
  curr_temp : Int
  curr_volt : Nat
  diags : Option qsfp_dd_diags
deriving DecidableEq

/-- qsfp_dd_show_sig_optical_pwr (qsfp-dd.c lines 427-502), decode part.
The early return fires only when the module type is neither MMF nor SMF AND
the eeprom length differs from the 6-page value, exactly as the `&&` chain
in the source. -/
def qsfp_dd_show_sig_optical_pwr (id : Nat → Nat) (eeprom_len : Nat) : SigPwrReport :=
  let module_type := id QSFP_DD_MODULE_TYPE_OFFSET
  let curr_temp := OFFSET_TO_TEMP id QSFP_DD_CURR_TEMP_OFFSET
  let curr_volt := OFFSET_TO_U16 id QSFP_DD_CURR_CURR_OFFSET
  if module_type ≠ QSFP_DD_MT_MMF ∧ module_type ≠ QSFP_DD_MT_SMF ∧
      eeprom_len ≠ QSFP_DD_EEPROM_5PAG then
    { curr_temp := curr_temp, curr_volt := curr_volt, diags := none }
  else
    { curr_temp := curr_temp, curr_volt := curr_volt,
      diags := some (qsfp_dd_parse_diagnostics id) }

/-- Modelled from the spec: the presentation macro PRINT_TEMP lives in
sff-common.h, which is not among this repository's sources; the spec states
that temperature is a signed 16-bit value at 1/256 degree Celsius per LSB. -/
def tempCelsiusOfRaw (r : Int) : ℚ := (r : ℚ) / 256

/-- A buffer whose module-type byte carries the MMF code and whose every
other byte is zero. -/
def mmfBuf : Nat → Nat :=
  fun a => if a = QSFP_DD_MODULE_TYPE_OFFSET then QSFP_DD_MT_MMF else 0

/-- Same as `mmfBuf` below offset 256, but with a nonzero byte at the lane-0
transmit bias offset (682), far past a 256-byte buffer. -/
def mmfBufB : Nat → Nat :=
  fun a => if a = QSFP_DD_MODULE_TYPE_OFFSET then QSFP_DD_MT_MMF
    else if a = QSFP_DD_TX_BIAS_START_OFFSET then 7 else 0

/-- A buffer whose module-type byte carries the SMF code and whose page-0
current-temperature bytes are 0x19, 0x80; every other byte is zero. -/
def smfTempBuf : Nat → Nat :=
  fun a => if a = QSFP_DD_MODULE_TYPE_OFFSET then QSFP_DD_MT_SMF
    else if a = QSFP_DD_CURR_TEMP_OFFSET then 0x19
    else if a = QSFP_DD_CURR_TEMP_OFFSET + 1 then 0x80 else 0

end QsfpDd

namespace QsfpDd

set_option maxRecDepth 40000

/-! ## Helper lemmas: multiplier/magnitude byte decomposition -/

theorem mask_mul_of_split : ∀ c < 4, ∀ m < 64, (c * 64 + m) &&& QSFP_DD_LEN_MUL_MASK = c * 64 := by
  decide

theorem mask_val_of_split : ∀ c < 4, ∀ m < 64, (c * 64 + m) &&& QSFP_DD_LEN_VAL_MASK = m := by
  decide

/-- Evaluation of the cable-assembly length decode on a non-sentinel byte
split into a 2-bit multiplier code and a 6-bit magnitude. -/
theorem cbl_asm_eval (c m : Nat) (hc : c < 4) (hm : m < 64) (hns : ¬(c = 3 ∧ m = 63)) :
    cbl_asm_len_of_byte (c * 64 + m) =
      CblAsmLenResult.lengthKm ((m : ℚ) *
        (if c = 0 then 1/10 else if c = 1 then 1 else if c = 2 then 10 else 100)) := by
  have h1 := mask_mul_of_split c hc m hm
  have h2 := mask_val_of_split c hc m hm
  have hb : ¬(c * 64 + m = QSFP_DD_6300M_MAX_LEN) := by
    unfold QSFP_DD_6300M_MAX_LEN; omega
  simp only [cbl_asm_len_of_byte, h1, h2, if_neg hb,
    QSFP_DD_MULTIPLIER_00, QSFP_DD_MULTIPLIER_01,
    QSFP_DD_MULTIPLIER_10, QSFP_DD_MULTIPLIER_11]
  interval_cases c <;> norm_num

/-- Evaluation of the SMF link-length decode on a byte split into a 2-bit
multiplier code and a 6-bit magnitude: only code 00 selects 0.1, every other
code leaves the multiplier at 1.0. -/
theorem smf_len_eval (c m : Nat) (hc : c < 4) (hm : m < 64) :
    smf_cbl_len_of_byte (c * 64 + m) = (m : ℚ) * (if c = 0 then 1/10 else 1) := by
  have h1 := mask_mul_of_split c hc m hm
  have h2 := mask_val_of_split c hc m hm
  simp only [smf_cbl_len_of_byte, h1, h2,
    QSFP_DD_MULTIPLIER_00, QSFP_DD_MULTIPLIER_01]
  interval_cases c <;> norm_num

/-! ## Claim C5 -/

/-- Claim C5: for every buffer whose cable-assembly byte equals the reserved
maximum sentinel value 0xFF, the decoded cable assembly length is the
"> 6.3 km" result, bypassing the multiplier and magnitude logic entirely,
regardless of all other bytes. -/
theorem C5_cbl_sentinel (id : Nat → Nat)
    (h : id QSFP_DD_CBL_ASM_LEN_OFFSET = QSFP_DD_6300M_MAX_LEN) :
    qsfp_dd_show_cbl_asm_len id = CblAsmLenResult.maxLen6300m := by
  unfold qsfp_dd_show_cbl_asm_len cbl_asm_len_of_byte
  rw [h, if_pos rfl]

/-- Witness for C5 at the constant buffer 0xFF. -/
theorem C5_cbl_sentinel_witness :
    qsfp_dd_show_cbl_asm_len (fun _ => 0xFF) = CblAsmLenResult.maxLen6300m :=
  C5_cbl_sentinel (fun _ => 0xFF) rfl

/-! ## Claim C6 -/

/-- Claim C6 counterexample: the claim quantifies over every magnitude in
0x01-0x3F combined with each of the four multiplier codes, but magnitude 0x3F
with code 11 forms the byte 0xFF, which is the reserved sentinel: the decode
yields the "> 6.3 km" result there instead of 63 * 100 km. -/
theorem C6_cex :
    qsfp_dd_show_cbl_asm_len (fun _ => 0xFF) ≠
      CblAsmLenResult.lengthKm ((63 : ℚ) * 100) := by
  unfold qsfp_dd_show_cbl_asm_len cbl_asm_len_of_byte
  simp [QSFP_DD_6300M_MAX_LEN]

/-- Claim C6 (amended): for every magnitude 0x01-0x3F combined with each of
the four two-bit multiplier codes, except the sentinel combination of
magnitude 0x3F with code 11 (byte 0xFF), the decoded cable assembly length
equals magnitude times the scale factor from {0.1, 1, 10, 100} selected by
the code, exactly. -/
theorem C6_cbl_multiplier (id : Nat → Nat) (c m : Nat) (hc : c < 4)
    (hm1 : 1 ≤ m) (hm2 : m ≤ 0x3F) (hns : ¬(c = 3 ∧ m = 0x3F))
    (hb : id QSFP_DD_CBL_ASM_LEN_OFFSET = c * 0x40 + m) :
    qsfp_dd_show_cbl_asm_len id =
      CblAsmLenResult.lengthKm ((m : ℚ) *
        (if c = 0 then 1/10 else if c = 1 then 1 else if c = 2 then 10 else 100)) := by
  unfold qsfp_dd_show_cbl_asm_len
  rw [hb]
  exact cbl_asm_eval c m hc (by omega) hns

/-- Witness for C6 (amended) at code 10, magnitude 5: 5 * 10 km. -/
theorem C6_cbl_multiplier_witness :
    qsfp_dd_show_cbl_asm_len (fun _ => 133) =
      CblAsmLenResult.lengthKm ((5 : ℚ) *
        (if (2 : Nat) = 0 then 1/10 else if (2 : Nat) = 1 then 1
         else if (2 : Nat) = 2 then 10 else 100)) :=
  C6_cbl_multiplier (fun _ => 133) 2 5 (by decide) (by decide) (by decide)
    (by decide) (by decide)

/-! ## Claim C10 -/

/-- Claim C10: the SMF fiber length decoder applies scale factor 0.1 for
multiplier code 00 and 1.0 for every other code (the switch default), so for
codes 10 and 11 the decoded SMF length equals the 6-bit magnitude times 1.0,
never times 10 or 100 - unlike the cable-assembly length decoder, which
honors all four codes. -/
theorem C10_smf_multiplier (id id2 : Nat → Nat) (c m : Nat) (hc : c < 4) (hm : m < 64)
    (hb : id QSFP_DD_SMF_LEN_OFFSET = c * 0x40 + m) :
    qsfp_dd_print_smf_cbl_len id = (m : ℚ) * (if c = 0 then 1/10 else 1) ∧
    (2 ≤ c → 1 ≤ m →
      qsfp_dd_print_smf_cbl_len id = (m : ℚ) ∧
      qsfp_dd_print_smf_cbl_len id ≠ (m : ℚ) * 10 ∧
      qsfp_dd_print_smf_cbl_len id ≠ (m : ℚ) * 100 ∧
      (id2 QSFP_DD_CBL_ASM_LEN_OFFSET = c * 0x40 + m → ¬(c = 3 ∧ m = 63) →
        qsfp_dd_show_cbl_asm_len id2 =
          CblAsmLenResult.lengthKm ((m : ℚ) * (if c = 2 then 10 else 100)))) := by
  have hsmf : qsfp_dd_print_smf_cbl_len id = (m : ℚ) * (if c = 0 then 1/10 else 1) := by
    unfold qsfp_dd_print_smf_cbl_len
    rw [hb]
    exact smf_len_eval c m hc hm
  refine ⟨hsmf, fun hc2 hm1 => ?_⟩
  have hcne : ¬(c = 0) := by omega
  have hmq : (0 : ℚ) < (m : ℚ) := by exact_mod_cast hm1
  have hval : qsfp_dd_print_smf_cbl_len id = (m : ℚ) := by
    rw [hsmf, if_neg hcne, mul_one]
  refine ⟨hval, ?_, ?_, fun hb2 hns => ?_⟩
  · rw [hval]; intro h; nlinarith
  · rw [hval]; intro h; nlinarith
  · have := cbl_asm_eval c m hc hm hns
    unfold qsfp_dd_show_cbl_asm_len
    rw [hb2, this]
    rcases (by omega : c = 2 ∨ c = 3) with h | h <;> subst h <;> norm_num

/-- Witness for C10 at code 10, magnitude 5 for the SMF byte, same byte for
the cable-assembly buffer. -/
theorem C10_smf_multiplier_witness :
    qsfp_dd_print_smf_cbl_len (fun _ => 133) =
      (5 : ℚ) * (if (2 : Nat) = 0 then 1/10 else 1) ∧
    (2 ≤ (2 : Nat) → 1 ≤ (5 : Nat) →
      qsfp_dd_print_smf_cbl_len (fun _ => 133) = (5 : ℚ) ∧
      qsfp_dd_print_smf_cbl_len (fun _ => 133) ≠ (5 : ℚ) * 10 ∧
      qsfp_dd_print_smf_cbl_len (fun _ => 133) ≠ (5 : ℚ) * 100 ∧
      ((fun _ => 133 : Nat → Nat) QSFP_DD_CBL_ASM_LEN_OFFSET = 2 * 0x40 + 5 →
        ¬((2 : Nat) = 3 ∧ (5 : Nat) = 63) →
        qsfp_dd_show_cbl_asm_len (fun _ => 133) =
          CblAsmLenResult.lengthKm ((5 : ℚ) * (if (2 : Nat) = 2 then 10 else 100)))) :=
  C10_smf_multiplier (fun _ => 133) (fun _ => 133) 2 5 (by decide) (by decide) (by decide)

end QsfpDd

namespace QsfpDd

set_option maxRecDepth 100000

/-! ## Claim C1 -/

/-- Claim C1, evaluated on a failing input: a 768-byte buffer whose
module-type byte is 0x00 (neither MMF nor SMF, e.g. passive copper) still
gets a populated diagnostics sub-report, because the early return at
qsfp-dd.c lines 452-455 requires the length to differ from 768 as a third
`&&` conjunct instead of gating on BOTH conditions. -/
theorem C1_gate_code_eval :
    ((fun _ => (0 : Nat)) QSFP_DD_MODULE_TYPE_OFFSET ≠ QSFP_DD_MT_MMF ∧
     (fun _ => (0 : Nat)) QSFP_DD_MODULE_TYPE_OFFSET ≠ QSFP_DD_MT_SMF) ∧
    (qsfp_dd_show_sig_optical_pwr (fun _ => 0) QSFP_DD_EEPROM_5PAG).diags.isSome = true := by
  constructor
  · exact ⟨by decide, by decide⟩
  · rfl

/-! ## Claim C2 -/

/-- Claim C2, evaluated on a failing input: for a 256-byte buffer whose
module-type byte is the MMF code, the early return is NOT taken (the first
`&&` conjunct is already false), so the code extracts a full diagnostics
sub-report, reading lane and threshold offsets far beyond the declared
256 bytes, where the claim requires the sub-report to be absent. -/
theorem C2_gate_code_eval :
    mmfBuf QSFP_DD_MODULE_TYPE_OFFSET = QSFP_DD_MT_MMF ∧
    (qsfp_dd_show_sig_optical_pwr mmfBuf 256).diags.isSome = true := by
  constructor
  · rfl
  · rfl

/-! ## Claim C3 -/

set_option maxHeartbeats 4000000 in
/-- Claim C3, evaluated on a failing input: two memories that agree on every
offset below the declared length 256 (both with the MMF module-type byte)
decode to different reports, so the engine silently reads past the declared
length and completes with a populated report instead of failing with an
OutOfRange error. -/
theorem C3_silent_oob_code_eval :
    (∀ a < 256, mmfBuf a = mmfBufB a) ∧
    qsfp_dd_show_sig_optical_pwr mmfBuf 256 ≠ qsfp_dd_show_sig_optical_pwr mmfBufB 256 := by
  constructor
  · intro a ha
    have h682 : a ≠ QSFP_DD_TX_BIAS_START_OFFSET := by
      unfold QSFP_DD_TX_BIAS_START_OFFSET PAG11H_OFFSET; omega
    unfold mmfBuf mmfBufB
    by_cases h : a = QSFP_DD_MODULE_TYPE_OFFSET <;> simp [h, h682]
  · decide

/-! ## Claim C4 -/

/-- Claim C4: for every 768-byte buffer whose module-type byte indicates
multi-mode or single-mode fiber, decode succeeds and the diagnostics
sub-report contains exactly 8 populated channel-diagnostics entries, lane i
holding the big-endian 16-bit values read at base offset + i*2 for the bias
current, transmit power and receive power bases. -/
theorem C4_eight_lanes (id : Nat → Nat)
    (hmt : id QSFP_DD_MODULE_TYPE_OFFSET = QSFP_DD_MT_MMF ∨
           id QSFP_DD_MODULE_TYPE_OFFSET = QSFP_DD_MT_SMF) :
    ∃ sd, (qsfp_dd_show_sig_optical_pwr id QSFP_DD_EEPROM_5PAG).diags = some sd ∧
      sd.scd.length = 8 ∧
      ∀ i < 8, sd.scd.get? i = some
        { bias_cur := id (QSFP_DD_TX_BIAS_START_OFFSET + i * 2) * 256 +
            id (QSFP_DD_TX_BIAS_START_OFFSET + i * 2 + 1)
          rx_power := id (QSFP_DD_RX_PWR_START_OFFSET + i * 2) * 256 +
            id (QSFP_DD_RX_PWR_START_OFFSET + i * 2 + 1)
          tx_power := id (QSFP_DD_TX_PWR_START_OFFSET + i * 2) * 256 +
            id (QSFP_DD_TX_PWR_START_OFFSET + i * 2 + 1) } := by
  refine ⟨qsfp_dd_parse_diagnostics id, ?_, rfl, ?_⟩
  · rcases hmt with h | h <;>
      simp [qsfp_dd_show_sig_optical_pwr, h, QSFP_DD_MT_MMF, QSFP_DD_MT_SMF]
  · intro i hi
    interval_cases i <;> rfl

/-- Witness for C4 at a concrete 768-byte MMF buffer. -/
theorem C4_eight_lanes_witness :
    ∃ sd, (qsfp_dd_show_sig_optical_pwr mmfBuf QSFP_DD_EEPROM_5PAG).diags = some sd ∧
      sd.scd.length = 8 ∧
      ∀ i < 8, sd.scd.get? i = some
        { bias_cur := mmfBuf (QSFP_DD_TX_BIAS_START_OFFSET + i * 2) * 256 +
            mmfBuf (QSFP_DD_TX_BIAS_START_OFFSET + i * 2 + 1)
          rx_power := mmfBuf (QSFP_DD_RX_PWR_START_OFFSET + i * 2) * 256 +
            mmfBuf (QSFP_DD_RX_PWR_START_OFFSET + i * 2 + 1)
          tx_power := mmfBuf (QSFP_DD_TX_PWR_START_OFFSET + i * 2) * 256 +
            mmfBuf (QSFP_DD_TX_PWR_START_OFFSET + i * 2 + 1) } :=
  C4_eight_lanes mmfBuf (Or.inl rfl)

/-! ## Claim C9 -/

/-- Claim C9: for a 768-byte buffer whose module-type byte is the SMF code
and whose page-0 current-temperature bytes are 0x19, 0x80, the decoded
current module temperature raw value is 0x1980 = 6528 (signed 16-bit,
big-endian) and the rendered temperature is 6528/256 = 25.5 degrees
Celsius. -/
theorem C9_temp_example (id : Nat → Nat)
    (hmt : id QSFP_DD_MODULE_TYPE_OFFSET = QSFP_DD_MT_SMF)
    (h1 : id QSFP_DD_CURR_TEMP_OFFSET = 0x19)
    (h2 : id (QSFP_DD_CURR_TEMP_OFFSET + 1) = 0x80) :
    (qsfp_dd_show_sig_optical_pwr id QSFP_DD_EEPROM_5PAG).curr_temp = 6528 ∧
    tempCelsiusOfRaw (qsfp_dd_show_sig_optical_pwr id QSFP_DD_EEPROM_5PAG).curr_temp
      = 51 / 2 := by
  have htemp : (qsfp_dd_show_sig_optical_pwr id QSFP_DD_EEPROM_5PAG).curr_temp = 6528 := by
    simp [qsfp_dd_show_sig_optical_pwr, hmt, QSFP_DD_MT_SMF, OFFSET_TO_TEMP,
      OFFSET_TO_U16, toS16, h1, h2]
  refine ⟨htemp, ?_⟩
  rw [htemp]
  norm_num [tempCelsiusOfRaw]

/-- Witness for C9 at a concrete buffer carrying the SMF code and the
temperature bytes 0x19, 0x80. -/
theorem C9_temp_example_witness :
    (qsfp_dd_show_sig_optical_pwr smfTempBuf QSFP_DD_EEPROM_5PAG).curr_temp = 6528 ∧
    tempCelsiusOfRaw (qsfp_dd_show_sig_optical_pwr smfTempBuf QSFP_DD_EEPROM_5PAG).curr_temp
      = 51 / 2 :=
  C9_temp_example smfTempBuf rfl rfl rfl

end QsfpDd

namespace QsfpDd

/-! ## Helper lemmas for byte combination and bit extraction -/

theorem shl8_or_eq (x y : Nat) (hy : y < 256) : (x <<< 8 ||| y) = x * 256 + y := by
  have h := Nat.mul_add_lt_is_or (b := y) (i := 8) (by omega) x
  rw [Nat.shiftLeft_eq]
  calc x * 2 ^ 8 ||| y = 2 ^ 8 * x ||| y := by rw [Nat.mul_comm]
    _ = 2 ^ 8 * x + y := h.symm
    _ = x * 256 + y := by rw [Nat.mul_comm]

theorem flag_testBit (x k : Nat) : (x &&& (1 <<< k) != 0) = x.testBit k := by
  rw [Nat.shiftLeft_eq, one_mul, Nat.and_two_pow]
  cases h : x.testBit k <;> simp

theorem testBit_xor_pow (x k j : Nat) :
    (x ^^^ (1 <<< k)).testBit j = if j = k then !(x.testBit j) else x.testBit j := by
  rw [Nat.shiftLeft_eq, one_mul, Nat.testBit_xor]
  by_cases h : j = k
  · subst h; simp
  · simp [h, Nat.testBit_two_pow_of_ne (Ne.symm h)]

/-- The byte offset holding the alarm/warning class `cls` for direction
`mode`, matching the four reads in each branch of
qsfp_dd_read_aw_for_channel. -/
def awOffset (mode cls : Nat) : Nat :=
  if mode = QSFP_DD_READ_TX then
    if cls = HA then QSFP_DD_TX_HA_OFFSET
    else if cls = LA then QSFP_DD_TX_LA_OFFSET
    else if cls = HW then QSFP_DD_TX_HW_OFFSET
    else QSFP_DD_TX_LW_OFFSET
  else
    if cls = HA then QSFP_DD_RX_HA_OFFSET
    else if cls = LA then QSFP_DD_RX_LA_OFFSET
    else if cls = HW then QSFP_DD_RX_HW_OFFSET
    else QSFP_DD_RX_LW_OFFSET

theorem aw_get (id : Nat → Nat) (ch mode cls : Nat) (hcls : cls < 4) :
    (qsfp_dd_read_aw_for_channel id ch mode).get? cls =
      some (id (awOffset mode cls) &&& (1 <<< ch) != 0) := by
  unfold qsfp_dd_read_aw_for_channel awOffset
  by_cases h : mode = QSFP_DD_READ_TX <;>
    simp only [if_pos, if_neg, h, if_true, if_false] <;>
      (interval_cases cls <;> simp [HA, LA, HW, LW])

theorem awOffset_inj :
    ∀ d < 2, ∀ c < 4, ∀ e < 2, ∀ f < 4,
      awOffset d c ≠ awOffset e f ∨ (d = e ∧ c = f) := by
  decide

/-! ## Claim C7 -/

/-- Claim C7: for every media-interface-technology code at or above the
copper threshold, only the four attenuation fields are reported and the
wavelength fields are ignored (a second buffer agreeing on the technology
byte and the four attenuation bytes decodes identically, whatever its
wavelength bytes hold); for every code below the threshold, only the nominal
wavelength and tolerance are reported, each two bytes combined big-endian
and scaled by 0.05 nm resp. 0.005 nm, and the attenuation bytes are
ignored. -/
theorem C7_mit_branch_exclusive (m1 m2 : Nat → Nat)
    (htech : m2 QSFP_DD_MEDIA_INTF_TECH_OFFSET = m1 QSFP_DD_MEDIA_INTF_TECH_OFFSET) :
    (QSFP_DD_COPPER_UNEQUAL ≤ m1 QSFP_DD_MEDIA_INTF_TECH_OFFSET →
      m2 QSFP_DD_COPPER_ATT_5GHZ = m1 QSFP_DD_COPPER_ATT_5GHZ →
      m2 QSFP_DD_COPPER_ATT_7GHZ = m1 QSFP_DD_COPPER_ATT_7GHZ →
      m2 QSFP_DD_COPPER_ATT_12P9GHZ = m1 QSFP_DD_COPPER_ATT_12P9GHZ →
      m2 QSFP_DD_COPPER_ATT_25P8GHZ = m1 QSFP_DD_COPPER_ATT_25P8GHZ →
      qsfp_dd_show_mit_compliance m2 =
        MitResult.copper (m1 QSFP_DD_COPPER_ATT_5GHZ) (m1 QSFP_DD_COPPER_ATT_7GHZ)
          (m1 QSFP_DD_COPPER_ATT_12P9GHZ) (m1 QSFP_DD_COPPER_ATT_25P8GHZ) ∧
      qsfp_dd_show_mit_compliance m2 = qsfp_dd_show_mit_compliance m1) ∧
    (m1 QSFP_DD_MEDIA_INTF_TECH_OFFSET < QSFP_DD_COPPER_UNEQUAL →
      m1 QSFP_DD_NOM_WAVELENGTH_LSB < 256 →
      m1 QSFP_DD_WAVELENGTH_TOL_LSB < 256 →
      m2 QSFP_DD_NOM_WAVELENGTH_MSB = m1 QSFP_DD_NOM_WAVELENGTH_MSB →
      m2 QSFP_DD_NOM_WAVELENGTH_LSB = m1 QSFP_DD_NOM_WAVELENGTH_LSB →
      m2 QSFP_DD_WAVELENGTH_TOL_MSB = m1 QSFP_DD_WAVELENGTH_TOL_MSB →
      m2 QSFP_DD_WAVELENGTH_TOL_LSB = m1 QSFP_DD_WAVELENGTH_TOL_LSB →
      qsfp_dd_show_mit_compliance m2 =
        MitResult.optical
          (((m1 QSFP_DD_NOM_WAVELENGTH_MSB * 256 +
             m1 QSFP_DD_NOM_WAVELENGTH_LSB : Nat) : ℚ) * (5/100))
          (((m1 QSFP_DD_WAVELENGTH_TOL_MSB * 256 +
             m1 QSFP_DD_WAVELENGTH_TOL_LSB : Nat) : ℚ) * (5/1000)) ∧
      qsfp_dd_show_mit_compliance m2 = qsfp_dd_show_mit_compliance m1) := by
  constructor
  · intro hge h5 h7 h12 h25
    have hge2 : QSFP_DD_COPPER_UNEQUAL ≤ m2 QSFP_DD_MEDIA_INTF_TECH_OFFSET := by
      rw [htech]; exact hge
    unfold qsfp_dd_show_mit_compliance
    rw [if_pos hge2, if_pos hge, h5, h7, h12, h25]
    exact ⟨rfl, rfl⟩
  · intro hlt hl1 hl2 hw1 hw2 hw3 hw4
    have hlt2 : ¬ QSFP_DD_COPPER_UNEQUAL ≤ m2 QSFP_DD_MEDIA_INTF_TECH_OFFSET := by
      rw [htech]; omega
    unfold qsfp_dd_show_mit_compliance
    rw [if_neg hlt2, if_neg (by omega), hw1, hw2, hw3, hw4]
    refine ⟨?_, rfl⟩
    rw [shl8_or_eq _ _ hl1, shl8_or_eq _ _ hl2]

/-- Witness for C7 at the all-zero buffer (technology code 0, optical). -/
theorem C7_mit_branch_exclusive_witness :
    (QSFP_DD_COPPER_UNEQUAL ≤ (fun _ => (0 : Nat)) QSFP_DD_MEDIA_INTF_TECH_OFFSET →
      (fun _ => (0 : Nat)) QSFP_DD_COPPER_ATT_5GHZ = (fun _ => (0 : Nat)) QSFP_DD_COPPER_ATT_5GHZ →
      (fun _ => (0 : Nat)) QSFP_DD_COPPER_ATT_7GHZ = (fun _ => (0 : Nat)) QSFP_DD_COPPER_ATT_7GHZ →
      (fun _ => (0 : Nat)) QSFP_DD_COPPER_ATT_12P9GHZ = (fun _ => (0 : Nat)) QSFP_DD_COPPER_ATT_12P9GHZ →
      (fun _ => (0 : Nat)) QSFP_DD_COPPER_ATT_25P8GHZ = (fun _ => (0 : Nat)) QSFP_DD_COPPER_ATT_25P8GHZ →
      qsfp_dd_show_mit_compliance (fun _ => 0) =
        MitResult.copper ((fun _ => (0 : Nat)) QSFP_DD_COPPER_ATT_5GHZ)
          ((fun _ => (0 : Nat)) QSFP_DD_COPPER_ATT_7GHZ)
          ((fun _ => (0 : Nat)) QSFP_DD_COPPER_ATT_12P9GHZ)
          ((fun _ => (0 : Nat)) QSFP_DD_COPPER_ATT_25P8GHZ) ∧
      qsfp_dd_show_mit_compliance (fun _ => 0) = qsfp_dd_show_mit_compliance (fun _ => 0)) ∧
    ((fun _ => (0 : Nat)) QSFP_DD_MEDIA_INTF_TECH_OFFSET < QSFP_DD_COPPER_UNEQUAL →
      (fun _ => (0 : Nat)) QSFP_DD_NOM_WAVELENGTH_LSB < 256 →
      (fun _ => (0 : Nat)) QSFP_DD_WAVELENGTH_TOL_LSB < 256 →
      (fun _ => (0 : Nat)) QSFP_DD_NOM_WAVELENGTH_MSB = (fun _ => (0 : Nat)) QSFP_DD_NOM_WAVELENGTH_MSB →
      (fun _ => (0 : Nat)) QSFP_DD_NOM_WAVELENGTH_LSB = (fun _ => (0 : Nat)) QSFP_DD_NOM_WAVELENGTH_LSB →
      (fun _ => (0 : Nat)) QSFP_DD_WAVELENGTH_TOL_MSB = (fun _ => (0 : Nat)) QSFP_DD_WAVELENGTH_TOL_MSB →
      (fun _ => (0 : Nat)) QSFP_DD_WAVELENGTH_TOL_LSB = (fun _ => (0 : Nat)) QSFP_DD_WAVELENGTH_TOL_LSB →
      qsfp_dd_show_mit_compliance (fun _ => 0) =
        MitResult.optical
          ((((fun _ => (0 : Nat)) QSFP_DD_NOM_WAVELENGTH_MSB * 256 +
             (fun _ => (0 : Nat)) QSFP_DD_NOM_WAVELENGTH_LSB : Nat) : ℚ) * (5/100))
          ((((fun _ => (0 : Nat)) QSFP_DD_WAVELENGTH_TOL_MSB * 256 +
             (fun _ => (0 : Nat)) QSFP_DD_WAVELENGTH_TOL_LSB : Nat) : ℚ) * (5/1000)) ∧
      qsfp_dd_show_mit_compliance (fun _ => 0) = qsfp_dd_show_mit_compliance (fun _ => 0)) :=
  C7_mit_branch_exclusive (fun _ => 0) (fun _ => 0) rfl

/-! ## Claim C8 -/

/-- Claim C8: for every pair of buffers that differ only in bit k of one
alarm-class byte (one of HA, LA, HW, LW, in the transmit or receive
direction), the decoded alarm/warning flags differ only in lane k's flag for
that exact class and direction: every other lane, class and direction
combination decodes identically, and lane k's flag for the flipped byte does
change. -/
theorem C8_alarm_bit_independence (m1 m2 : Nat → Nat) (d c k : Nat)
    (hd : d = QSFP_DD_READ_TX ∨ d = QSFP_DD_READ_RX) (hc : c < 4) (hk : k < 8)
    (hflip : m2 (awOffset d c) = m1 (awOffset d c) ^^^ (1 <<< k))
    (hother : ∀ a, a ≠ awOffset d c → m2 a = m1 a) :
    (∀ e, (e = QSFP_DD_READ_TX ∨ e = QSFP_DD_READ_RX) → ∀ f < 4, ∀ j < 8,
        ¬(e = d ∧ f = c ∧ j = k) →
        (qsfp_dd_read_aw_for_channel m2 j e).get? f =
          (qsfp_dd_read_aw_for_channel m1 j e).get? f) ∧
    (qsfp_dd_read_aw_for_channel m2 k d).get? c ≠
      (qsfp_dd_read_aw_for_channel m1 k d).get? c := by
  have hd2 : d < 2 := by
    rcases hd with h | h <;> simp [h, QSFP_DD_READ_TX, QSFP_DD_READ_RX]
  constructor
  · intro e he f hf j hj hne
    have he2 : e < 2 := by
      rcases he with h | h <;> simp [h, QSFP_DD_READ_TX, QSFP_DD_READ_RX]
    rw [aw_get m2 j e f hf, aw_get m1 j e f hf]
    by_cases hoff : awOffset e f = awOffset d c
    · obtain ⟨hed, hfc⟩ :=
        (awOffset_inj e he2 f hf d hd2 c hc).resolve_left (not_not_intro hoff)
      have hjk : j ≠ k := fun hjk => hne ⟨hed, hfc, hjk⟩
      rw [hoff, hflip]
      congr 1
      rw [flag_testBit, flag_testBit, testBit_xor_pow, if_neg hjk]
    · rw [hother _ hoff]
  · rw [aw_get m2 k d c hc, aw_get m1 k d c hc, hflip]
    intro h
    have h2 := Option.some.inj h
    rw [flag_testBit, flag_testBit, testBit_xor_pow, if_pos rfl] at h2
    simp at h2

/-- Witness for C8: flipping bit 0 of the transmit high-alarm byte. -/
theorem C8_alarm_bit_independence_witness :
    (∀ e, (e = QSFP_DD_READ_TX ∨ e = QSFP_DD_READ_RX) → ∀ f < 4, ∀ j < 8,
        ¬(e = 0 ∧ f = 0 ∧ j = 0) →
        (qsfp_dd_read_aw_for_channel
            (fun a => if a = QSFP_DD_TX_HA_OFFSET then 1 else 0) j e).get? f =
          (qsfp_dd_read_aw_for_channel (fun _ => 0) j e).get? f) ∧
    (qsfp_dd_read_aw_for_channel
        (fun a => if a = QSFP_DD_TX_HA_OFFSET then 1 else 0) 0 0).get? 0 ≠
      (qsfp_dd_read_aw_for_channel (fun _ => 0) 0 0).get? 0 :=
  C8_alarm_bit_independence (fun _ => 0)
    (fun a => if a = QSFP_DD_TX_HA_OFFSET then 1 else 0) 0 0 0
    (Or.inl rfl) (by decide) (by decide) (by decide)
    (fun a ha => if_neg (by simpa [awOffset, QSFP_DD_READ_TX, HA] using ha))

end QsfpDd
